import Mathlib

/-!
Verification of the OTP bot's deduplication cache and dispatch cycle
(`otp_filter.py`, `main_with_commands.py`, `utils.py`, `scraper.py`).

Shallow embedding conventions:
* The wall clock (`datetime.now()`) is modelled as a `Nat` tick count passed
  explicitly; within one call of a cache operation it is a single instant
  `now` (real calls complete in far less than one expiry window).
  `timedelta(minutes=expire_minutes)` is modelled by measuring ticks in
  minutes, so the expiry comparison `current_time - entry_time >
  timedelta(minutes=self.expire_minutes)` becomes `now - t > expire_minutes`
  on `Nat`.  A timestamp in the future yields a truncated difference of `0`,
  which matches Python, where a negative `timedelta` is never greater than
  the positive window.
* The cache dict is modelled as an association list in insertion order
  (Python dicts preserve insertion order); `self.cache[key] = v` overwrites
  in place when the key exists and appends otherwise.
* File writes (`_save_cache`) are modelled by returning a `SaveAttempt`
  record; the boolean `writeOk` parameter selects whether the `try` body
  succeeds or the `except` branch runs (which only prints an error message,
  leaving the in-memory state untouched).
-/

/-- An OTP event record as produced by the scraper: the Python dict with keys
`otp`, `phone`, `service`, `timestamp`, `raw_message`. -/
structure OtpData where
  otp : String
  phone : String
  service : String
  time_str : String
  raw_message : String
deriving DecidableEq, Repr

/-- A cache value as written by `OTPFilter.add_otp`
(`{'timestamp', 'otp', 'phone', 'service'}`).  `time` is `some t` when the
stored timestamp parses to an instant `t`; `none` models a missing or
malformed timestamp (the `KeyError`/`ValueError` branch of
`_cleanup_expired`). -/
structure CacheEntry where
  time : Option Nat
  otp : String
  phone : String
  service : String
deriving DecidableEq, Repr

/-- The `OTPFilter` object's fields that the cache logic reads:
`expire_minutes` and the in-memory `cache` dict
(src/otp_filter.py lines 8-11). -/
structure OTPFilter where
  expire_minutes : Nat
  cache : List (String × CacheEntry)
deriving DecidableEq, Repr

/-- Python `self.cache[key] = v` on an insertion-ordered dict: overwrite in
place when the key is present, append otherwise. -/
def dictInsert (k : String) (v : CacheEntry) (c : List (String × CacheEntry)) :
    List (String × CacheEntry) :=
  if (c.lookup k).isSome then
    c.map (fun p => if p.1 = k then (k, v) else p)
  else
    c ++ [(k, v)]

/-- `OTPFilter._generate_key` (src/otp_filter.py lines 47-53):
`f"{otp}_{phone}_{service}"`. -/
def generate_key (d : OtpData) : String :=
  d.otp ++ "_" ++ d.phone ++ "_" ++ d.service

/-- The expiry test of `OTPFilter._cleanup_expired` for one entry: expired
when `current_time - entry_time > timedelta(minutes=expire_minutes)`, and a
missing/unparseable timestamp is also collected as expired. -/
def entryExpired (now window : Nat) (e : CacheEntry) : Bool :=
  match e.time with
  | some t => decide (now - t > window)
  | none => true

/-- `OTPFilter._cleanup_expired` (src/otp_filter.py lines 31-45): collect the
keys of expired entries, then delete them; equivalently, keep exactly the
non-expired entries in order. -/
def cleanup_expired (now : Nat) (f : OTPFilter) : OTPFilter :=
  { f with cache := f.cache.filter (fun p => !entryExpired now f.expire_minutes p.2) }

/-- `OTPFilter.is_duplicate` (src/otp_filter.py lines 55-59): run the expiry
sweep on `self.cache`, then test key membership.  Returns the boolean result
together with the mutated filter state. -/
def is_duplicate (now : Nat) (f : OTPFilter) (d : OtpData) : Bool × OTPFilter :=
  let f1 := cleanup_expired now f
  ((f1.cache.lookup (generate_key d)).isSome, f1)

/-- One attempted write of the full in-memory mapping to the cache file.
`ok = false` means `json.dump` raised and the `except` branch only printed
an error. -/
structure SaveAttempt where
  payload : List (String × CacheEntry)
  ok : Bool
deriving DecidableEq, Repr

/-- `OTPFilter._save_cache` (src/otp_filter.py lines 23-29): attempt to write
the whole current mapping; a failure is caught and only printed. -/
def save_cache (writeOk : Bool) (f : OTPFilter) : SaveAttempt :=
  ⟨f.cache, writeOk⟩

/-- `OTPFilter.add_otp` (src/otp_filter.py lines 61-70): store the entry under
its fingerprint key with the current time, then call `_save_cache`. -/
def add_otp (writeOk : Bool) (now : Nat) (f : OTPFilter) (d : OtpData) :
    OTPFilter × SaveAttempt :=
  let f1 := { f with
    cache := dictInsert (generate_key d) ⟨some now, d.otp, d.phone, d.service⟩ f.cache }
  (f1, save_cache writeOk f1)

/-- `OTPFilter.clear_cache` (src/otp_filter.py lines 92-96): empty the mapping,
persist, and return the confirmation string. -/
def clear_cache (writeOk : Bool) (f : OTPFilter) :
    OTPFilter × SaveAttempt × String :=
  let f1 := { f with cache := [] }
  (f1, save_cache writeOk f1, "Cache cleared successfully")

/-- `OTPFilter.filter_new_otps` (src/otp_filter.py lines 72-81): for each event
in arrival order, if `is_duplicate` says no, keep it for delivery and
immediately `add_otp` it.  Returns the final filter state, the kept events in
order, and the sequence of save attempts. -/
def filter_new_otps (writeOk : Bool) (now : Nat) :
    OTPFilter → List OtpData → OTPFilter × List OtpData × List SaveAttempt
  | f, [] => (f, [], [])
  | f, d :: rest =>
    let c := is_duplicate now f d
    if c.1 then
      filter_new_otps writeOk now c.2 rest
    else
      let a := add_otp writeOk now c.2 d
      let r := filter_new_otps writeOk now a.1 rest
      (r.1, d :: r.2.1, a.2 :: r.2.2)

/-- The possible states of the cache file at process start, as distinguished
by `OTPFilter._load_cache` (src/otp_filter.py lines 13-21): the file may be
absent (`os.path.exists` false), present with valid JSON, present with
malformed JSON (`json.JSONDecodeError`), or present but unreadable — the open
itself raises an `OSError` such as `PermissionError`, which is outside the
caught `(json.JSONDecodeError, FileNotFoundError)` pair. -/
inductive StorageState where
  | missing : StorageState
  | validJson : List (String × CacheEntry) → StorageState
  | corruptJson : StorageState
  | unreadable : StorageState
deriving DecidableEq, Repr

/-- `OTPFilter._load_cache` (src/otp_filter.py lines 13-21): a missing file
returns `{}`; valid JSON is returned; a `json.JSONDecodeError` is caught and
`{}` returned; an unreadable file raises `PermissionError`, which the
`except (json.JSONDecodeError, FileNotFoundError)` clause does not catch, so
the exception propagates (`Except.error`). -/
def load_cache : StorageState → Except String (List (String × CacheEntry))
  | .missing => .ok []
  | .validJson data => .ok data
  | .corruptJson => .ok []
  | .unreadable => .error "PermissionError"

/-- `OTPFilter.__init__` (src/otp_filter.py lines 8-11): construct the filter
by loading the cache from storage; an uncaught exception from `_load_cache`
propagates out of the constructor. -/
def OTPFilter.init (expireMinutes : Nat) (s : StorageState) :
    Except String OTPFilter :=
  (load_cache s).map (fun c => ⟨expireMinutes, c⟩)

/-- `format_otp_message` (src/utils.py lines 4-29): the single-event message. -/
def format_otp_message (d : OtpData) : String :=
  "🔐 <b>New OTP Received</b>\n\n🔢 OTP: <code>" ++ d.otp ++
    "</code>\n📱 Number: <code>" ++ d.phone ++ "</code>\n🌐 Service: <b>" ++
    d.service ++ "</b>\n⏰ Time: " ++ d.time_str ++
    "\n\n<i>Tap the OTP to copy it!</i>"

/-- One numbered line of the batched message (src/utils.py line 55). -/
def otpLine (i : Nat) (d : OtpData) : String :=
  "<b>" ++ toString i ++ ".</b> <code>" ++ d.otp ++ "</code> | " ++
    d.service ++ " | <code>" ++ d.phone ++ "</code>"

/-- The `enumerate(otp_list, 1)` loop of `format_multiple_otps`
(src/utils.py lines 49-56): one line per event, numbered from `i`. -/
def otpLines (i : Nat) : List OtpData → List String
  | [] => []
  | d :: rest => otpLine i d :: otpLines (i + 1) rest

/-- `format_multiple_otps` (src/utils.py lines 31-60): empty list gives a
fixed string, a singleton falls back to `format_otp_message`, and otherwise
a header with the count, the numbered lines joined by newlines, and a
footer. -/
def format_multiple_otps (l : List OtpData) : String :=
  match l with
  | [] => "No new OTPs found."
  | [d] => format_otp_message d
  | _ =>
    "🔐 <b>" ++ toString l.length ++ " New OTPs Received</b>\n\n" ++
      String.intercalate "\n" (otpLines 1 l) ++
      "\n\n<i>Tap any OTP to copy it!</i>"

/-- `IVASMSScraper.fetch_messages` (src/scraper.py lines 82-127) as seen by
the dispatch cycle: the scraping itself is external, so its outcome is a
parameter — either a list of events, or an internal error that the method's
`except` clause swallows into an empty list (lines 125-127).  A failed login
also yields `[]` (lines 84-86).  The method touches no bot statistics. -/
def fetch_messages (outcome : Except String (List OtpData)) : List OtpData :=
  match outcome with
  | .ok msgs => msgs
  | .error _ => []

/-- The `bot_stats` dict of src/main_with_commands.py lines 35-41, restricted
to the fields the dispatch cycle reads or writes (`start_time` is only
formatted for display).  `last_check = none` models the initial `'Never'`. -/
structure BotStats where
  total_otps_sent : Nat
  last_check : Option Nat
  last_error : Option String
  is_running : Bool
deriving DecidableEq, Repr

/-- Result of `send_telegram_message`: its boolean return value, the calls
actually made to the Notifier (`bot.send_message`), and the updated stats. -/
structure SendOutcome where
  delivered : Bool
  attempts : List String
  stats : BotStats
deriving DecidableEq, Repr

/-- `send_telegram_message` (src/main_with_commands.py lines 212-239): if the
bot or group id is unconfigured, log and return `False` without contacting
the Notifier; otherwise call `bot.send_message` — the network outcome is the
parameter `sendR` — returning `True` on success and, on an exception,
recording `last_error` and returning `False`. -/
def send_telegram_message (configured : Bool) (sendR : Except String Unit)
    (stats : BotStats) (message : String) : SendOutcome :=
  if !configured then
    ⟨false, [], stats⟩
  else
    match sendR with
    | .ok _ => ⟨true, [message], stats⟩
    | .error e => ⟨false, [message], { stats with last_error := some e }⟩

/-- Observable result of one `check_and_send_otps` pass: the updated stats,
the updated filter, the messages handed to the Notifier, and the cache-file
save attempts made. -/
structure CycleResult where
  stats : BotStats
  filt : OTPFilter
  notifierCalls : List String
  saves : List SaveAttempt
deriving DecidableEq, Repr

/-- `check_and_send_otps` (src/main_with_commands.py lines 241-282), one
poll-filter-dispatch pass.  `scraperInit` models `if not scraper`;
`fetchR` is the scraper's internal outcome (swallowed to `[]` by
`fetch_messages` on error); `configured`/`sendR` parametrise
`send_telegram_message`.  None of the modelled callees raises, so the
method's own top-level `except` (lines 280-282) never runs. -/
def check_and_send_otps (scraperInit configured writeOk : Bool) (now : Nat)
    (fetchR : Except String (List OtpData)) (sendR : Except String Unit)
    (stats : BotStats) (f : OTPFilter) : CycleResult :=
  if !scraperInit then
    ⟨stats, f, [], []⟩
  else
    let messages := fetch_messages fetchR
    let stats1 := { stats with last_check := some now }
    if messages.isEmpty then
      ⟨stats1, f, [], []⟩
    else
      let r := filter_new_otps writeOk now f messages
      if r.2.1.isEmpty then
        ⟨stats1, r.1, [], r.2.2⟩
      else
        let message :=
          match r.2.1 with
          | [d] => format_otp_message d
          | _ => format_multiple_otps r.2.1
        let s := send_telegram_message configured sendR stats1 message
        if s.delivered then
          ⟨{ s.stats with
              total_otps_sent := s.stats.total_otps_sent + r.2.1.length },
            r.1, s.attempts, r.2.2⟩
        else
          ⟨s.stats, r.1, s.attempts, r.2.2⟩

/-- Status tag of the JSON responses returned by the Flask routes. -/
inductive RespStatus where
  | info : RespStatus
  | success : RespStatus
  | error : RespStatus
deriving DecidableEq, Repr

/-- Result of the `/start-monitor` route: the (unchanged or unchanged) stats,
the JSON response, and how many new monitor threads were started. -/
structure MonitorResult where
  stats : BotStats
  status : RespStatus
  message : String
  threadsStarted : Nat
deriving DecidableEq, Repr

/-- `start_monitor` (src/main_with_commands.py lines 413-426): if
`bot_stats['is_running']` is already true, immediately return the
informational "already running" response without touching the flag or
spawning a thread; otherwise try to spawn `background_monitor` (`spawnOk`
models whether `threading.Thread(...).start()` raises). -/
def start_monitor (spawnOk : Bool) (stats : BotStats) : MonitorResult :=
  if stats.is_running then
    ⟨stats, .info, "Monitor already running", 0⟩
  else if spawnOk then
    ⟨stats, .success, "Background monitor started", 1⟩
  else
    ⟨stats, .error, "thread start failed", 0⟩

/-- Region A of one iteration of the `filter_new_otps` loop body: the
`is_duplicate` call (src/otp_filter.py line 77).  The source takes no lock,
so in a threaded run this region and region B below are separately atomic
but not jointly atomic. -/
def checkStep (now : Nat) (f : OTPFilter) (d : OtpData) : Bool × OTPFilter :=
  is_duplicate now f d

/-- Region B of the same loop body: if the check said "new", append the event
to the thread's result and `add_otp` it (src/otp_filter.py lines 78-79).
Returns the new shared state and this thread's delivered events. -/
def recordStep (writeOk : Bool) (now : Nat) (f : OTPFilter) (d : OtpData)
    (wasDup : Bool) : OTPFilter × List OtpData :=
  if wasDup then (f, []) else ((add_otp writeOk now f d).1, [d])

/-- Two threads each running `filter_new_otps([d])` on the shared filter
state, interleaved so that both check regions execute before either record
region — a schedule the lock-free source permits.  Returns each thread's
reported-new list and the final shared state. -/
def twoThreadsInterleaved (writeOk : Bool) (now : Nat) (f : OTPFilter)
    (d : OtpData) : List OtpData × List OtpData × OTPFilter :=
  let a := checkStep now f d
  let b := checkStep now a.2 d
  let ra := recordStep writeOk now b.2 d a.1
  let rb := recordStep writeOk now ra.1 d b.1
  (ra.2, rb.2, rb.1)

/-- The same two threads run serially: thread A's check and record complete
before thread B begins. -/
def twoThreadsSerialized (writeOk : Bool) (now : Nat) (f : OTPFilter)
    (d : OtpData) : List OtpData × List OtpData × OTPFilter :=
  let a := checkStep now f d
  let ra := recordStep writeOk now a.2 d a.1
  let b := checkStep now ra.1 d
  let rb := recordStep writeOk now b.2 d b.1
  (ra.2, rb.2, rb.1)

/-- Modelled from the spec: "for each event in arrival order, if not a
duplicate, marks it for delivery and immediately records it ... Returns only
the first of each duplicate group."  Keeps the first occurrence of every key
not in `seen`, accumulating kept keys.  This is the spec-side description
that claim C1 compares `filter_new_otps` against. -/
def keepFirstOccurrences (seen : List String) : List OtpData → List OtpData
  | [] => []
  | d :: rest =>
    if generate_key d ∈ seen then
      keepFirstOccurrences seen rest
    else
      d :: keepFirstOccurrences (generate_key d :: seen) rest

/-- The keys that are live (present and unexpired) in a filter's cache at
instant `now`: exactly the keys surviving the expiry sweep. -/
def liveKeys (now : Nat) (f : OTPFilter) : List String :=
  ((cleanup_expired now f).cache).map Prod.fst

/-- A filter state in which no cache entry is expired at instant `now` —
the state every operation leaves behind once the sweep has run. -/
def allLive (now : Nat) (f : OTPFilter) : Prop :=
  ∀ q ∈ f.cache, entryExpired now f.expire_minutes q.2 = false

/-- The first event of the C10 collision pair. -/
def collisionEventA : OtpData :=
  ⟨"12_34", "+88_170", "Face", "10:00:00", "code 12_34"⟩

/-- The second event of the C10 collision pair: every fingerprint field
differs from `collisionEventA`, yet the underscore-joined key coincides. -/
def collisionEventB : OtpData :=
  ⟨"12", "34_+88", "170_Face", "10:00:05", "code 12"⟩

/-- C10: the fingerprint key function concatenates code, phone and service
with `_` and is not injective: `collisionEventA` and `collisionEventB` differ
in all three fingerprint fields (each containing underscores) yet share the
key, so after `add_otp` records the first, `is_duplicate` reports the second
as a duplicate, and `filter_new_otps` drops it from a batch. -/
theorem generate_key_collision :
    generate_key collisionEventA = generate_key collisionEventB ∧
    collisionEventA.otp ≠ collisionEventB.otp ∧
    collisionEventA.phone ≠ collisionEventB.phone ∧
    collisionEventA.service ≠ collisionEventB.service ∧
    (is_duplicate 0 (add_otp true 0 ⟨30, []⟩ collisionEventA).1 collisionEventB).1 = true ∧
    (filter_new_otps true 0 ⟨30, []⟩ [collisionEventA, collisionEventB]).2.1 =
      [collisionEventA] := by
  refine ⟨rfl, ?_, ?_, ?_, rfl, rfl⟩ <;> decide

theorem lookup_cons_pair (a : String) (q : String × CacheEntry)
    (es : List (String × CacheEntry)) :
    (q :: es).lookup a = if a = q.1 then some q.2 else es.lookup a := by
  obtain ⟨k, b⟩ := q
  simp only [List.lookup]
  by_cases h : a = k
  · simp [h]
  · simp [h, beq_false_of_ne h]

theorem lookup_isSome_of_mem (q : String × CacheEntry)
    (c : List (String × CacheEntry)) (hq : q ∈ c) :
    (c.lookup q.1).isSome = true := by
  induction c with
  | nil => cases hq
  | cons p rest ih =>
    rw [lookup_cons_pair]
    by_cases h : q.1 = p.1
    · simp [h]
    · have hmem : q ∈ rest := by
        rcases List.mem_cons.1 hq with h1 | h1
        · exact absurd (congrArg Prod.fst h1) h
        · exact h1
      simp [h, ih hmem]

theorem lookup_map_overwrite_ne (k k' : String) (v : CacheEntry) (h : k' ≠ k)
    (c : List (String × CacheEntry)) :
    (c.map (fun p => if p.1 = k then (k, v) else p)).lookup k' = c.lookup k' := by
  induction c with
  | nil => rfl
  | cons p rest ih =>
    simp only [List.map_cons]
    rw [lookup_cons_pair, lookup_cons_pair]
    by_cases hp : p.1 = k
    · simp [hp, h, ih]
    · simp [hp, ih]

theorem lookup_map_overwrite_self (k : String) (v : CacheEntry)
    (c : List (String × CacheEntry)) (hsome : (c.lookup k).isSome = true) :
    (c.map (fun p => if p.1 = k then (k, v) else p)).lookup k = some v := by
  induction c with
  | nil => cases hsome
  | cons p rest ih =>
    simp only [List.map_cons]
    rw [lookup_cons_pair]
    by_cases hp : p.1 = k
    · simp [hp]
    · have hp' : ¬k = p.1 := fun hh => hp hh.symm
      rw [lookup_cons_pair, if_neg hp'] at hsome
      simp [hp, hp', ih hsome]

theorem lookup_append_single_self (k : String) (v : CacheEntry)
    (c : List (String × CacheEntry)) (hnone : c.lookup k = none) :
    (c ++ [(k, v)]).lookup k = some v := by
  induction c with
  | nil => simp [lookup_cons_pair]
  | cons p rest ih =>
    rw [List.cons_append, lookup_cons_pair]
    rw [lookup_cons_pair] at hnone
    by_cases hp : k = p.1
    · rw [if_pos hp] at hnone; cases hnone
    · rw [if_neg hp] at hnone
      simp [hp, ih hnone]

theorem lookup_append_single_ne (k k' : String) (v : CacheEntry) (h : k' ≠ k)
    (c : List (String × CacheEntry)) :
    (c ++ [(k, v)]).lookup k' = c.lookup k' := by
  induction c with
  | nil => simp [lookup_cons_pair, h]
  | cons p rest ih =>
    rw [List.cons_append, lookup_cons_pair, lookup_cons_pair, ih]

theorem lookup_dictInsert_self (k : String) (v : CacheEntry)
    (c : List (String × CacheEntry)) :
    (dictInsert k v c).lookup k = some v := by
  unfold dictInsert
  split
  · rename_i h
    exact lookup_map_overwrite_self k v c h
  · rename_i h
    have hnone : c.lookup k = none := by
      cases hc : c.lookup k with
      | none => rfl
      | some w => rw [hc] at h; cases h rfl
    exact lookup_append_single_self k v c hnone

theorem lookup_dictInsert_ne (k k' : String) (v : CacheEntry)
    (c : List (String × CacheEntry)) (h : k' ≠ k) :
    (dictInsert k v c).lookup k' = c.lookup k' := by
  unfold dictInsert
  split
  · exact lookup_map_overwrite_ne k k' v h c
  · exact lookup_append_single_ne k k' v h c

theorem dictInsert_mem (k : String) (v : CacheEntry)
    (c : List (String × CacheEntry)) :
    ∀ q ∈ dictInsert k v c, q ∈ c ∨ q = (k, v) := by
  intro q hq
  unfold dictInsert at hq
  split at hq
  · rcases List.mem_map.1 hq with ⟨p, hp, hpe⟩
    by_cases h : p.1 = k
    · right; rw [if_pos h] at hpe; exact hpe.symm
    · left; rw [if_neg h] at hpe; exact hpe ▸ hp
  · rcases List.mem_append.1 hq with h | h
    · exact Or.inl h
    · right; simpa using h

theorem dictInsert_key_eq (k : String) (v : CacheEntry)
    (c : List (String × CacheEntry)) :
    ∀ q ∈ dictInsert k v c, q.1 = k → q = (k, v) := by
  intro q hq hk
  unfold dictInsert at hq
  split at hq
  · rcases List.mem_map.1 hq with ⟨p, hp, hpe⟩
    by_cases h : p.1 = k
    · rw [if_pos h] at hpe; exact hpe.symm
    · rw [if_neg h] at hpe
      exact absurd (by rw [hpe]; exact hk) h
  · rename_i hns
    rcases List.mem_append.1 hq with h | h
    · exfalso
      have hs := lookup_isSome_of_mem q c h
      rw [hk] at hs
      exact hns hs
    · simpa using h

theorem lookup_filter_all (k : String) (v : CacheEntry)
    (p : String × CacheEntry → Bool)
    (c : List (String × CacheEntry))
    (hall : ∀ q ∈ c, q.1 = k → q = (k, v)) :
    (c.filter p).lookup k = if p (k, v) = true then c.lookup k else none := by
  induction c with
  | nil => cases hp : p (k, v) <;> simp
  | cons q rest ih =>
    have hall' : ∀ q' ∈ rest, q'.1 = k → q' = (k, v) :=
      fun q' hq' => hall q' (List.mem_cons_of_mem q hq')
    by_cases hqk : q.1 = k
    · have hq : q = (k, v) := hall q (List.mem_cons_self q rest) hqk
      subst hq
      by_cases hp : p (k, v) = true
      · simp [List.filter_cons, hp, lookup_cons_pair]
      · simp [List.filter_cons, hp, lookup_cons_pair, ih hall']
    · have hknq : ¬k = q.1 := fun hh => hqk hh.symm
      by_cases hp : p q = true
      · simp [List.filter_cons, hp, lookup_cons_pair, hknq, ih hall']
      · simp [List.filter_cons, hp, lookup_cons_pair, hknq, ih hall']

/-- C2: once an event has been recorded by `add_otp` at time `t0`, a later
`is_duplicate` check at time `now` returns `true` exactly while the entry's
age `now - t0` is within the configured expiry window (in particular `true`
whenever the age is less than the window and `false` as soon as it exceeds
it), because the eager full-scan sweep run by every `is_duplicate` call
removes precisely the entries whose age exceeds the window — after the call
no expired entry remains in the cache. -/
theorem is_duplicate_tracks_expiry (writeOk : Bool) (t0 now : Nat)
    (f : OTPFilter) (d : OtpData) :
    (is_duplicate now (add_otp writeOk t0 f d).1 d).1
        = decide (now - t0 ≤ f.expire_minutes) ∧
    ∀ q ∈ (is_duplicate now (add_otp writeOk t0 f d).1 d).2.cache,
      entryExpired now f.expire_minutes q.2 = false := by
  have hkey := dictInsert_key_eq (generate_key d)
      ⟨some t0, d.otp, d.phone, d.service⟩ f.cache
  have hfil := lookup_filter_all (generate_key d)
      ⟨some t0, d.otp, d.phone, d.service⟩
      (fun p => !entryExpired now f.expire_minutes p.2)
      (dictInsert (generate_key d) ⟨some t0, d.otp, d.phone, d.service⟩ f.cache)
      hkey
  constructor
  · simp only [is_duplicate, add_otp, cleanup_expired]
    rw [hfil, lookup_dictInsert_self]
    by_cases h : now - t0 ≤ f.expire_minutes
    · have he : entryExpired now f.expire_minutes
          ⟨some t0, d.otp, d.phone, d.service⟩ = false := by
        simp [entryExpired, Nat.not_lt.2 h]
      simp [he, h]
    · have hgt : f.expire_minutes < now - t0 := Nat.lt_of_not_le h
      have he : entryExpired now f.expire_minutes
          ⟨some t0, d.otp, d.phone, d.service⟩ = true := by
        simp [entryExpired, hgt]
      simp [he, h]
  · intro q hq
    simp only [is_duplicate, add_otp, cleanup_expired] at hq
    have := (List.mem_filter.1 hq).2
    simpa using this

theorem lookup_isSome_iff_mem_keys (k : String) :
    ∀ c : List (String × CacheEntry),
      (c.lookup k).isSome = true ↔ k ∈ c.map Prod.fst := by
  intro c
  induction c with
  | nil => simp
  | cons p rest ih =>
    rw [lookup_cons_pair]
    by_cases h : k = p.1
    · simp [h]
    · simp [h, ih]

theorem allLive_cleanup (now : Nat) (f : OTPFilter) :
    allLive now (cleanup_expired now f) := by
  intro q hq
  have := (List.mem_filter.1 hq).2
  simpa using this

theorem cleanup_eq_self (now : Nat) (f : OTPFilter) (h : allLive now f) :
    cleanup_expired now f = f := by
  unfold cleanup_expired
  have : f.cache.filter (fun p => !entryExpired now f.expire_minutes p.2) = f.cache := by
    rw [List.filter_eq_self]
    intro q hq
    simp [h q hq]
  rw [this]

theorem cleanup_idem (now : Nat) (f : OTPFilter) :
    cleanup_expired now (cleanup_expired now f) = cleanup_expired now f :=
  cleanup_eq_self now _ (allLive_cleanup now f)

theorem allLive_add (writeOk : Bool) (now : Nat) (f : OTPFilter) (d : OtpData)
    (h : allLive now f) : allLive now (add_otp writeOk now f d).1 := by
  intro q hq
  simp only [add_otp] at hq
  rcases dictInsert_mem _ _ _ q hq with hm | he
  · exact h q hm
  · subst he
    simp [entryExpired]

theorem keepFirst_sublist (seen : List String) (l : List OtpData) :
    (keepFirstOccurrences seen l).Sublist l := by
  induction l generalizing seen with
  | nil => exact List.Sublist.refl []
  | cons d rest ih =>
    rw [keepFirstOccurrences]
    by_cases h : generate_key d ∈ seen
    · rw [if_pos h]
      exact (ih seen).cons d
    · rw [if_neg h]
      exact (ih (generate_key d :: seen)).cons₂ d

theorem keepFirst_keys_fresh (l : List OtpData) (seen : List String) :
    ((keepFirstOccurrences seen l).map generate_key).Nodup ∧
    ∀ d ∈ keepFirstOccurrences seen l, generate_key d ∉ seen := by
  induction l generalizing seen with
  | nil => exact ⟨List.nodup_nil, by intro d hd; cases hd⟩
  | cons d rest ih =>
    rw [keepFirstOccurrences]
    by_cases h : generate_key d ∈ seen
    · rw [if_pos h]
      exact ih seen
    · rw [if_neg h]
      obtain ⟨ihn, ihf⟩ := ih (generate_key d :: seen)
      constructor
      · rw [List.map_cons, List.nodup_cons]
        refine ⟨?_, ihn⟩
        intro hmem
        rcases List.mem_map.1 hmem with ⟨d', hd', hk⟩
        exact ihf d' hd' (hk ▸ List.mem_cons_self _ _)
      · intro d' hd'
        rcases List.mem_cons.1 hd' with h1 | h1
        · exact h1 ▸ h
        · exact fun hs => ihf d' h1 (List.mem_cons_of_mem _ hs)

theorem keepFirst_first_occurrence (k : String) (l : List OtpData)
    (seen : List String) (hk : k ∉ seen) :
    (keepFirstOccurrences seen l).find? (fun d' => generate_key d' == k)
      = l.find? (fun d' => generate_key d' == k) := by
  induction l generalizing seen with
  | nil => rfl
  | cons d rest ih =>
    rw [keepFirstOccurrences]
    by_cases h : generate_key d ∈ seen
    · rw [if_pos h]
      have hne : (generate_key d == k) = false := by
        refine beq_false_of_ne ?_
        intro he
        exact hk (he ▸ h)
      rw [List.find?_cons, hne, ih seen hk]
    · rw [if_neg h]
      by_cases he : generate_key d = k
      · rw [List.find?_cons, List.find?_cons]
        have : (generate_key d == k) = true := beq_iff_eq.2 he
        rw [this]
      · have hne : (generate_key d == k) = false := beq_false_of_ne he
        rw [List.find?_cons, List.find?_cons, hne]
        refine ih (generate_key d :: seen) ?_
        intro hs
        rcases List.mem_cons.1 hs with h1 | h1
        · exact he h1.symm
        · exact hk h1

theorem find?_key_isSome (d : OtpData) (l : List OtpData) (hd : d ∈ l) :
    (l.find? (fun d' => generate_key d' == generate_key d)).isSome = true := by
  induction l with
  | nil => cases hd
  | cons p rest ih =>
    rw [List.find?_cons]
    cases hpm : (generate_key p == generate_key d) with
    | true => rfl
    | false =>
      rcases List.mem_cons.1 hd with h1 | h1
      · subst h1
        rw [beq_self_eq_true] at hpm
        cases hpm
      · exact ih h1

theorem filter_out_eq_keepFirst (writeOk : Bool) (now : Nat) (l : List OtpData) :
    ∀ (f : OTPFilter) (seen : List String), allLive now f →
      (∀ k, (f.cache.lookup k).isSome = true ↔ k ∈ seen) →
      (filter_new_otps writeOk now f l).2.1 = keepFirstOccurrences seen l := by
  induction l with
  | nil =>
    intro f seen _ _
    rfl
  | cons d rest ih =>
    intro f seen hall hcorr
    have hclean : cleanup_expired now f = f := cleanup_eq_self now f hall
    rw [keepFirstOccurrences]
    by_cases hk : generate_key d ∈ seen
    · have hdup : (f.cache.lookup (generate_key d)).isSome = true := (hcorr _).2 hk
      rw [if_pos hk]
      simp only [filter_new_otps, is_duplicate, hclean, hdup, if_true]
      exact ih f seen hall hcorr
    · have hdup : (f.cache.lookup (generate_key d)).isSome = false := by
        cases hb : (f.cache.lookup (generate_key d)).isSome with
        | true => exact absurd ((hcorr _).1 hb) hk
        | false => rfl
      rw [if_neg hk]
      simp only [filter_new_otps, is_duplicate, hclean, hdup, Bool.false_eq_true,
        if_false]
      congr 1
      refine ih _ _ (allLive_add writeOk now f d hall) ?_
      intro k
      by_cases hke : k = generate_key d
      · subst hke
        simp [add_otp, lookup_dictInsert_self]
      · simp only [add_otp]
        rw [lookup_dictInsert_ne _ _ _ _ hke]
        constructor
        · intro hs
          exact List.mem_cons_of_mem _ ((hcorr k).1 hs)
        · intro hm
          rcases List.mem_cons.1 hm with h1 | h1
          · exact absurd h1 hke
          · exact (hcorr k).2 h1

/-- C1: within a single `filter_new_otps` batch, events are deduplicated
against each other, not just against history.  The returned sequence equals
the spec-side `keepFirstOccurrences` seeded with the cache's live keys; it
is a sublist of the input (arrival order preserved); its fingerprints are
pairwise distinct (at most one survivor per duplicate group); and for every
batch event whose fingerprint is not already live in the cache, the survivor
of its duplicate group exists and is exactly the group's first occurrence in
the batch. -/
theorem filter_new_otps_keeps_first (writeOk : Bool) (now : Nat)
    (f : OTPFilter) (l : List OtpData) :
    (filter_new_otps writeOk now f l).2.1
        = keepFirstOccurrences (liveKeys now f) l ∧
    ((filter_new_otps writeOk now f l).2.1).Sublist l ∧
    (((filter_new_otps writeOk now f l).2.1).map generate_key).Nodup ∧
    ∀ d ∈ l, generate_key d ∉ liveKeys now f →
      ((filter_new_otps writeOk now f l).2.1).find?
          (fun d' => generate_key d' == generate_key d)
        = l.find? (fun d' => generate_key d' == generate_key d) ∧
      (l.find? (fun d' => generate_key d' == generate_key d)).isSome = true := by
  have hmain : (filter_new_otps writeOk now f l).2.1
      = keepFirstOccurrences (liveKeys now f) l := by
    have hstep : (filter_new_otps writeOk now f l).2.1
        = (filter_new_otps writeOk now (cleanup_expired now f) l).2.1 := by
      cases l with
      | nil => rfl
      | cons d rest => simp only [filter_new_otps, is_duplicate, cleanup_idem]
    rw [hstep]
    exact filter_out_eq_keepFirst writeOk now l (cleanup_expired now f)
      (liveKeys now f) (allLive_cleanup now f)
      (fun k => lookup_isSome_iff_mem_keys k (cleanup_expired now f).cache)
  refine ⟨hmain, ?_, ?_, ?_⟩
  · rw [hmain]
    exact keepFirst_sublist _ _
  · rw [hmain]
    exact (keepFirst_keys_fresh l _).1
  · intro d hd hfresh
    refine ⟨?_, find?_key_isSome d l hd⟩
    rw [hmain]
    exact keepFirst_first_occurrence _ l _ hfresh

/-- Witness for C1: a concrete batch with a repeated fingerprint
(`111111 / +1 / Google` twice around a distinct event) against an empty
cache; the theorem's conclusions are instantiated and the first-occurrence
part's hypotheses discharged at that input. -/
theorem filter_new_otps_keeps_first_witness :
    (filter_new_otps true 0 ⟨30, []⟩
        [⟨"111111", "+1", "Google", "t1", "r1"⟩,
         ⟨"222222", "+2", "Facebook", "t2", "r2"⟩,
         ⟨"111111", "+1", "Google", "t3", "r3"⟩]).2.1
      = keepFirstOccurrences (liveKeys 0 ⟨30, []⟩)
          [⟨"111111", "+1", "Google", "t1", "r1"⟩,
           ⟨"222222", "+2", "Facebook", "t2", "r2"⟩,
           ⟨"111111", "+1", "Google", "t3", "r3"⟩] ∧
    ((filter_new_otps true 0 ⟨30, []⟩
        [⟨"111111", "+1", "Google", "t1", "r1"⟩,
         ⟨"222222", "+2", "Facebook", "t2", "r2"⟩,
         ⟨"111111", "+1", "Google", "t3", "r3"⟩]).2.1.map generate_key).Nodup ∧
    ((filter_new_otps true 0 ⟨30, []⟩
        [⟨"111111", "+1", "Google", "t1", "r1"⟩,
         ⟨"222222", "+2", "Facebook", "t2", "r2"⟩,
         ⟨"111111", "+1", "Google", "t3", "r3"⟩]).2.1).find?
        (fun d' => generate_key d' ==
          generate_key ⟨"111111", "+1", "Google", "t3", "r3"⟩)
      = [⟨"111111", "+1", "Google", "t1", "r1"⟩,
         ⟨"222222", "+2", "Facebook", "t2", "r2"⟩,
         ⟨"111111", "+1", "Google", "t3", "r3"⟩].find?
        (fun d' => generate_key d' ==
          generate_key ⟨"111111", "+1", "Google", "t3", "r3"⟩) := by
  have h := filter_new_otps_keeps_first true 0 ⟨30, []⟩
    [⟨"111111", "+1", "Google", "t1", "r1"⟩,
     ⟨"222222", "+2", "Facebook", "t2", "r2"⟩,
     ⟨"111111", "+1", "Google", "t3", "r3"⟩]
  exact ⟨h.1, h.2.2.1,
    (h.2.2.2 ⟨"111111", "+1", "Google", "t3", "r3"⟩ (by decide) (by decide)).1⟩

/-- C3 counterexample: two concurrent `filter_new_otps` invocations over the
same fresh fingerprint, interleaved so that both `is_duplicate` checks run
before either `add_otp` — a schedule the lock-free source permits — BOTH
report the event as new, refuting the claim that the check-and-record pair
is performed atomically under mutual exclusion. -/
theorem interleaved_double_delivery :
    (twoThreadsInterleaved true 0 ⟨30, []⟩
        ⟨"123456", "+1", "Google", "t", "r"⟩).1
      = [⟨"123456", "+1", "Google", "t", "r"⟩] ∧
    (twoThreadsInterleaved true 0 ⟨30, []⟩
        ⟨"123456", "+1", "Google", "t", "r"⟩).2.1
      = [⟨"123456", "+1", "Google", "t", "r"⟩] := by
  exact ⟨rfl, rfl⟩

/-- C3 amended: `filter_new_otps` takes no lock, so only serialized (non-
interleaved) executions are safe: when one invocation completes before the
other begins, the second never reports the shared fingerprint as new. -/
theorem serialized_no_double_delivery (writeOk : Bool) (now : Nat)
    (f : OTPFilter) (d : OtpData) :
    (twoThreadsSerialized writeOk now f d).2.1 = [] := by
  have hclean2 := cleanup_idem now f
  by_cases h : ((cleanup_expired now f).cache.lookup (generate_key d)).isSome = true
  · simp only [twoThreadsSerialized, checkStep, recordStep, is_duplicate, h,
      if_true, hclean2]
  · have h' : ((cleanup_expired now f).cache.lookup (generate_key d)).isSome
        = false := Bool.eq_false_iff.2 h
    have hAdd : allLive now (add_otp writeOk now (cleanup_expired now f) d).1 :=
      allLive_add writeOk now _ d (allLive_cleanup now f)
    have hclean3 : cleanup_expired now
        (add_otp writeOk now (cleanup_expired now f) d).1
        = (add_otp writeOk now (cleanup_expired now f) d).1 :=
      cleanup_eq_self now _ hAdd
    have hlook : (((add_otp writeOk now (cleanup_expired now f) d).1).cache.lookup
        (generate_key d)).isSome = true := by
      simp [add_otp, lookup_dictInsert_self]
    simp only [twoThreadsSerialized, checkStep, recordStep, is_duplicate, h',
      Bool.false_eq_true, if_false, hclean3, hlook, if_true]

/-- C6 counterexample: an unreadable cache file (the open itself raises, e.g.
`PermissionError`) is not caught by `_load_cache`'s
`except (json.JSONDecodeError, FileNotFoundError)` clause, so construction
propagates the exception instead of yielding an empty cache — refuting the
claim that every missing/corrupt/unreadable file loads as an empty cache
without a fatal error. -/
theorem load_cache_unreadable_raises :
    load_cache .unreadable = .error "PermissionError" ∧
    OTPFilter.init 30 .unreadable = .error "PermissionError" := by
  exact ⟨rfl, rfl⟩

/-- C6 amended: at construction the cache is loaded from storage; a missing
file or corrupt (undecodable) JSON yields an empty cache without error, but
an unreadable file propagates the underlying exception. -/
theorem load_cache_missing_or_corrupt (expireMinutes : Nat) :
    load_cache .missing = .ok [] ∧
    load_cache .corruptJson = .ok [] ∧
    OTPFilter.init expireMinutes .missing = .ok ⟨expireMinutes, []⟩ ∧
    OTPFilter.init expireMinutes .corruptJson = .ok ⟨expireMinutes, []⟩ ∧
    load_cache .unreadable = .error "PermissionError" := by
  exact ⟨rfl, rfl, rfl, rfl, rfl⟩

/-- C7: every mutating cache call (`add_otp`, `clear_cache`) hands
`_save_cache` the full final mapping before returning (the attempt's payload
equals the in-memory cache at return), the attempt's outcome records whether
the write succeeded, and the in-memory state after the call is identical
whether the write succeeded or failed (no rollback). -/
theorem mutating_calls_persist (writeOk : Bool) (now : Nat) (f : OTPFilter)
    (d : OtpData) :
    (add_otp true now f d).1 = (add_otp false now f d).1 ∧
    (add_otp writeOk now f d).2.payload = (add_otp writeOk now f d).1.cache ∧
    (add_otp writeOk now f d).2.ok = writeOk ∧
    (clear_cache true f).1 = (clear_cache false f).1 ∧
    (clear_cache writeOk f).2.1.payload = (clear_cache writeOk f).1.cache ∧
    (clear_cache writeOk f).2.1.ok = writeOk := by
  exact ⟨rfl, rfl, rfl, rfl, rfl, rfl⟩

/-- C8: issuing `/start-monitor` while `bot_stats['is_running']` is true
returns the informational "already running" response, starts no second
monitor thread, and leaves the stats (including the running flag) untouched. -/
theorem start_monitor_already_running (spawnOk : Bool) (stats : BotStats)
    (h : stats.is_running = true) :
    start_monitor spawnOk stats
      = ⟨stats, .info, "Monitor already running", 0⟩ := by
  simp [start_monitor, h]

/-- Witness for C8 at a concrete running state. -/
theorem start_monitor_already_running_witness :
    start_monitor false ⟨5, some 1, none, true⟩
      = ⟨⟨5, some 1, none, true⟩, .info, "Monitor already running", 0⟩ :=
  start_monitor_already_running false ⟨5, some 1, none, true⟩ rfl

/-- C4 counterexample: a cycle whose fetch fails internally (swallowed to an
empty list by `fetch_messages`) leaves `last_error` at `none` — the failure
is only printed inside the scraper and `check_and_send_otps` treats the
empty result as "no messages found" — refuting the claim that `lastError`
is set. -/
theorem fetch_failure_leaves_last_error_unset :
    (check_and_send_otps true true true 100 (.error "network down") (.ok ())
        ⟨0, none, none, false⟩ ⟨30, []⟩).stats.last_error = none ∧
    (check_and_send_otps true true true 100 (.error "network down") (.ok ())
        ⟨0, none, none, false⟩ ⟨30, []⟩).stats.total_otps_sent = 0 ∧
    (check_and_send_otps true true true 100 (.error "network down") (.ok ())
        ⟨0, none, none, false⟩ ⟨30, []⟩).notifierCalls = [] := by
  exact ⟨rfl, rfl, rfl⟩

/-- C4 amended: when the EventSource fetch fails internally the cycle stops
after recording only `last_check`: `last_error` is left unchanged (the error
is merely logged inside the scraper), `total_otps_sent` is unchanged, the
filter state is untouched, and no Notifier call and no cache write are
made. -/
theorem fetch_failure_cycle (configured writeOk : Bool) (now : Nat)
    (e : String) (sendR : Except String Unit) (stats : BotStats)
    (f : OTPFilter) :
    check_and_send_otps true configured writeOk now (.error e) sendR stats f
      = ⟨{ stats with last_check := some now }, f, [], []⟩ := by
  rfl

theorem filter_new_otps_records (writeOk : Bool) (now : Nat) :
    ∀ (l : List OtpData) (f : OTPFilter), allLive now f →
      allLive now (filter_new_otps writeOk now f l).1 ∧
      (∀ k, (f.cache.lookup k).isSome = true →
        (((filter_new_otps writeOk now f l).1).cache.lookup k).isSome = true) ∧
      ∀ d ∈ (filter_new_otps writeOk now f l).2.1,
        (((filter_new_otps writeOk now f l).1).cache.lookup
          (generate_key d)).isSome = true := by
  intro l
  induction l with
  | nil =>
    intro f hall
    exact ⟨hall, fun k h => h, fun d hd => absurd hd (List.not_mem_nil d)⟩
  | cons d rest ih =>
    intro f hall
    have hclean : cleanup_expired now f = f := cleanup_eq_self now f hall
    by_cases hdup : (f.cache.lookup (generate_key d)).isSome = true
    · simp only [filter_new_otps, is_duplicate, hclean, hdup, if_true]
      exact ih f hall
    · have hdup' : (f.cache.lookup (generate_key d)).isSome = false :=
        Bool.eq_false_iff.2 hdup
      simp only [filter_new_otps, is_duplicate, hclean, hdup',
        Bool.false_eq_true, if_false]
      have hall2 : allLive now (add_otp writeOk now f d).1 :=
        allLive_add writeOk now f d hall
      obtain ⟨ha, hm, ho⟩ := ih (add_otp writeOk now f d).1 hall2
      have hstep : ∀ k, (f.cache.lookup k).isSome = true →
          (((add_otp writeOk now f d).1).cache.lookup k).isSome = true := by
        intro k hk
        by_cases hke : k = generate_key d
        · subst hke
          simp [add_otp, lookup_dictInsert_self]
        · simp only [add_otp]
          rw [lookup_dictInsert_ne _ _ _ _ hke]
          exact hk
      refine ⟨ha, fun k hk => hm k (hstep k hk), ?_⟩
      intro d' hd'
      rcases List.mem_cons.1 hd' with h1 | h1
      · subst h1
        refine hm (generate_key d') ?_
        simp [add_otp, lookup_dictInsert_self]
      · exact ho d' h1

theorem filter_cleanup_eq (writeOk : Bool) (now : Nat) (f : OTPFilter)
    (d : OtpData) (rest : List OtpData) :
    filter_new_otps writeOk now f (d :: rest)
      = filter_new_otps writeOk now (cleanup_expired now f) (d :: rest) := by
  simp only [filter_new_otps, is_duplicate, cleanup_idem]

theorem filter_new_otps_survivors_recorded (writeOk : Bool) (now : Nat)
    (f : OTPFilter) (l : List OtpData) :
    ∀ d ∈ (filter_new_otps writeOk now f l).2.1,
      (((filter_new_otps writeOk now f l).1).cache.lookup
        (generate_key d)).isSome = true := by
  cases l with
  | nil =>
    intro d hd
    cases hd
  | cons d0 rest =>
    rw [filter_cleanup_eq]
    exact (filter_new_otps_records writeOk now (d0 :: rest)
      (cleanup_expired now f) (allLive_cleanup now f)).2.2

theorem cycle_delivery_eq (writeOk : Bool) (now : Nat) (stats : BotStats)
    (f : OTPFilter) (msgs : List OtpData) (sendR : Except String Unit)
    (h1 : msgs.isEmpty = false)
    (h2 : (filter_new_otps writeOk now f msgs).2.1.isEmpty = false) :
    check_and_send_otps true true writeOk now (.ok msgs) sendR stats f
      = match sendR with
        | .ok _ =>
          ⟨⟨stats.total_otps_sent + (filter_new_otps writeOk now f msgs).2.1.length,
              some now, stats.last_error, stats.is_running⟩,
            (filter_new_otps writeOk now f msgs).1,
            [match (filter_new_otps writeOk now f msgs).2.1 with
              | [d] => format_otp_message d
              | _ => format_multiple_otps (filter_new_otps writeOk now f msgs).2.1],
            (filter_new_otps writeOk now f msgs).2.2⟩
        | .error e =>
          ⟨⟨stats.total_otps_sent, some now, some e, stats.is_running⟩,
            (filter_new_otps writeOk now f msgs).1,
            [match (filter_new_otps writeOk now f msgs).2.1 with
              | [d] => format_otp_message d
              | _ => format_multiple_otps (filter_new_otps writeOk now f msgs).2.1],
            (filter_new_otps writeOk now f msgs).2.2⟩ := by
  rcases sendR with _ | e <;>
    simp [check_and_send_otps, fetch_messages, send_telegram_message, h1, h2]

/-- C5: when the cycle has survivors, the Notifier is called exactly once; on
success `total_otps_sent` grows by the survivor count and `last_error` is
untouched; on failure `last_error` is set, the counter is unchanged, and the
filter keeps the cache entries already recorded for the survivors (delivery
failure rolls nothing back, so a fingerprint is delivered at most once). -/
theorem notifier_outcome (writeOk : Bool) (now : Nat) (stats : BotStats)
    (f : OTPFilter) (msgs : List OtpData) (sendR : Except String Unit)
    (hmsgs : msgs ≠ [])
    (hnew : (filter_new_otps writeOk now f msgs).2.1 ≠ []) :
    (check_and_send_otps true true writeOk now (.ok msgs) sendR stats
        f).notifierCalls.length = 1 ∧
    (check_and_send_otps true true writeOk now (.ok msgs) sendR stats f).filt
      = (filter_new_otps writeOk now f msgs).1 ∧
    (sendR = .ok () →
      (check_and_send_otps true true writeOk now (.ok msgs) sendR stats
          f).stats.total_otps_sent
        = stats.total_otps_sent
            + (filter_new_otps writeOk now f msgs).2.1.length ∧
      (check_and_send_otps true true writeOk now (.ok msgs) sendR stats
          f).stats.last_error = stats.last_error) ∧
    (∀ e, sendR = .error e →
      (check_and_send_otps true true writeOk now (.ok msgs) sendR stats
          f).stats.last_error = some e ∧
      (check_and_send_otps true true writeOk now (.ok msgs) sendR stats
          f).stats.total_otps_sent = stats.total_otps_sent) ∧
    ∀ d ∈ (filter_new_otps writeOk now f msgs).2.1,
      (((check_and_send_otps true true writeOk now (.ok msgs) sendR stats
          f).filt).cache.lookup (generate_key d)).isSome = true := by
  have h1 : msgs.isEmpty = false := by
    cases msgs with
    | nil => exact absurd rfl hmsgs
    | cons a b => rfl
  have h2 : (filter_new_otps writeOk now f msgs).2.1.isEmpty = false := by
    cases hc : (filter_new_otps writeOk now f msgs).2.1 with
    | nil => exact absurd hc hnew
    | cons a b => rfl
  rcases sendR with e | e
  · have heq := cycle_delivery_eq writeOk now stats f msgs (.error e) h1 h2
    rw [heq]
    dsimp only
    refine ⟨rfl, rfl, ?_, ?_, ?_⟩
    · intro he
      exact Except.noConfusion he
    · intro e' he'
      injection he' with h
      subst h
      exact ⟨rfl, rfl⟩
    · exact filter_new_otps_survivors_recorded writeOk now f msgs
  · have heq := cycle_delivery_eq writeOk now stats f msgs (.ok e) h1 h2
    rw [heq]
    dsimp only
    refine ⟨rfl, rfl, fun _ => ⟨rfl, rfl⟩, ?_, ?_⟩
    · intro e' he'
      exact Except.noConfusion he'
    · exact filter_new_otps_survivors_recorded writeOk now f msgs

/-- Witness for C5: a concrete cycle whose Notifier rejects the message; the
error lands in `last_error`, the counter stays at 0, the Notifier was called
exactly once, and the survivor's fingerprint is recorded in the cache. -/
theorem notifier_outcome_witness :
    (check_and_send_otps true true true 7
        (.ok [⟨"111111", "+1", "Google", "t", "r"⟩]) (.error "boom")
        ⟨0, none, none, false⟩ ⟨30, []⟩).notifierCalls.length = 1 ∧
    (check_and_send_otps true true true 7
        (.ok [⟨"111111", "+1", "Google", "t", "r"⟩]) (.error "boom")
        ⟨0, none, none, false⟩ ⟨30, []⟩).stats.last_error = some "boom" ∧
    (check_and_send_otps true true true 7
        (.ok [⟨"111111", "+1", "Google", "t", "r"⟩]) (.error "boom")
        ⟨0, none, none, false⟩ ⟨30, []⟩).stats.total_otps_sent = 0 ∧
    (((check_and_send_otps true true true 7
        (.ok [⟨"111111", "+1", "Google", "t", "r"⟩]) (.error "boom")
        ⟨0, none, none, false⟩ ⟨30, []⟩).filt).cache.lookup
      (generate_key ⟨"111111", "+1", "Google", "t", "r"⟩)).isSome = true := by
  have h := notifier_outcome true 7 ⟨0, none, none, false⟩ ⟨30, []⟩
    [⟨"111111", "+1", "Google", "t", "r"⟩] (.error "boom")
    (by decide) (by decide)
  obtain ⟨ha, _, _, hd, he⟩ := h
  refine ⟨ha, (hd "boom" rfl).1, (hd "boom" rfl).2, ?_⟩
  exact he ⟨"111111", "+1", "Google", "t", "r"⟩ (by decide)

theorem otpLines_get? (l : List OtpData) :
    ∀ (k i : Nat), (otpLines k l).get? i
      = (l.get? i).map (fun d => otpLine (k + i) d) := by
  induction l with
  | nil =>
    intro k i
    rfl
  | cons d rest ih =>
    intro k i
    cases i with
    | zero => simp [otpLines]
    | succ j =>
      rw [otpLines]
      simp only [List.get?_cons_succ]
      rw [ih (k + 1) j]
      have hn : k + 1 + j = k + (j + 1) := by omega
      rw [hn]

/-- C9: with survivors present, exactly one message is handed to the
Notifier: a single-event rendering when exactly one survivor remains, and,
when more than one remains, a single batched rendering whose lines number
the survivors 1..N in arrival order; on successful delivery
`total_otps_sent` grows by the survivor count N. -/
theorem batched_message_rendering (writeOk : Bool) (now : Nat)
    (stats : BotStats) (f : OTPFilter) (msgs : List OtpData)
    (sendR : Except String Unit) (hmsgs : msgs ≠ []) :
    (∀ d, (filter_new_otps writeOk now f msgs).2.1 = [d] →
      (check_and_send_otps true true writeOk now (.ok msgs) sendR stats
          f).notifierCalls = [format_otp_message d]) ∧
    (1 < (filter_new_otps writeOk now f msgs).2.1.length →
      (check_and_send_otps true true writeOk now (.ok msgs) sendR stats
          f).notifierCalls
        = [format_multiple_otps (filter_new_otps writeOk now f msgs).2.1] ∧
      (∀ i : Nat, (otpLines 1 (filter_new_otps writeOk now f msgs).2.1).get? i
        = ((filter_new_otps writeOk now f msgs).2.1.get? i).map
            (fun d => otpLine (i + 1) d)) ∧
      (sendR = .ok () →
        (check_and_send_otps true true writeOk now (.ok msgs) sendR stats
            f).stats.total_otps_sent
          = stats.total_otps_sent
              + (filter_new_otps writeOk now f msgs).2.1.length)) := by
  have h1 : msgs.isEmpty = false := by
    cases msgs with
    | nil => exact absurd rfl hmsgs
    | cons a b => rfl
  constructor
  · intro d hd
    have h2 : (filter_new_otps writeOk now f msgs).2.1.isEmpty = false := by
      rw [hd]
      rfl
    rcases sendR with e | e
    · have heq := cycle_delivery_eq writeOk now stats f msgs (.error e) h1 h2
      rw [heq]
      dsimp only
      rw [hd]
    · have heq := cycle_delivery_eq writeOk now stats f msgs (.ok e) h1 h2
      rw [heq]
      dsimp only
      rw [hd]
  · intro hlen
    rcases hc : (filter_new_otps writeOk now f msgs).2.1 with _ | ⟨a, _ | ⟨b, t⟩⟩
    · rw [hc] at hlen
      simp at hlen
    · rw [hc] at hlen
      simp at hlen
    · have h2 : (filter_new_otps writeOk now f msgs).2.1.isEmpty = false := by
        rw [hc]
        rfl
      refine ⟨?_, ?_, ?_⟩
      · rcases sendR with e | e
        · have heq := cycle_delivery_eq writeOk now stats f msgs (.error e) h1 h2
          rw [heq]
          dsimp only
          rw [hc]
        · have heq := cycle_delivery_eq writeOk now stats f msgs (.ok e) h1 h2
          rw [heq]
          dsimp only
          rw [hc]
      · intro i
        have h := otpLines_get? (a :: b :: t) 1 i
        rw [h]
        have hn : 1 + i = i + 1 := by omega
        rw [hn]
      · intro hok
        subst hok
        have heq := cycle_delivery_eq writeOk now stats f msgs (.ok ()) h1 h2
        rw [heq]
        dsimp only
        rw [hc]

/-- Witness for C9: a concrete cycle over a batch of three distinct new
events against an empty cache sends exactly one batched message and, on
success, raises the delivered count from 0 to 3; the second rendered line
is the second survivor numbered 2. -/
theorem batched_message_rendering_witness :
    (check_and_send_otps true true true 3
        (.ok [⟨"111111", "+1", "Google", "t1", "r1"⟩,
              ⟨"222222", "+2", "Facebook", "t2", "r2"⟩,
              ⟨"333333", "+3", "WhatsApp", "t3", "r3"⟩]) (.ok ())
        ⟨0, none, none, true⟩ ⟨30, []⟩).notifierCalls
      = [format_multiple_otps
          (filter_new_otps true 3 ⟨30, []⟩
            [⟨"111111", "+1", "Google", "t1", "r1"⟩,
             ⟨"222222", "+2", "Facebook", "t2", "r2"⟩,
             ⟨"333333", "+3", "WhatsApp", "t3", "r3"⟩]).2.1] ∧
    (check_and_send_otps true true true 3
        (.ok [⟨"111111", "+1", "Google", "t1", "r1"⟩,
              ⟨"222222", "+2", "Facebook", "t2", "r2"⟩,
              ⟨"333333", "+3", "WhatsApp", "t3", "r3"⟩]) (.ok ())
        ⟨0, none, none, true⟩ ⟨30, []⟩).stats.total_otps_sent = 3 ∧
    (otpLines 1 (filter_new_otps true 3 ⟨30, []⟩
        [⟨"111111", "+1", "Google", "t1", "r1"⟩,
         ⟨"222222", "+2", "Facebook", "t2", "r2"⟩,
         ⟨"333333", "+3", "WhatsApp", "t3", "r3"⟩]).2.1).get? 1
      = some (otpLine 2 ⟨"222222", "+2", "Facebook", "t2", "r2"⟩) := by
  have h := batched_message_rendering true 3 ⟨0, none, none, true⟩ ⟨30, []⟩
    [⟨"111111", "+1", "Google", "t1", "r1"⟩,
     ⟨"222222", "+2", "Facebook", "t2", "r2"⟩,
     ⟨"333333", "+3", "WhatsApp", "t3", "r3"⟩] (.ok ()) (by decide)
  obtain ⟨hcalls, hget, htot⟩ := h.2 (by decide)
  refine ⟨hcalls, ?_, ?_⟩
  · rw [htot rfl]
    decide
  · rw [hget 1]
    decide
